import Mathlib

/-
Verification of mqttshutdownd's policy-evaluation and debounce core.

The embedding translates, from the Go source:
  - power_alarm.go: the PowerAlarmMessage schema and its Valid() check;
  - main.go lines 122-143: startup compilation and boolean-type checking of
    the two CEL policy expressions;
  - main.go lines 161-229: the single-consumer event goroutine holding the
    timer slot t, including topic checking, JSON unmarshalling, validation,
    and the asymmetric down-expr / recovered-expr evaluation;
  - main.go lines 201-208: the time.AfterFunc fire callback invoking shutdown;
  - the StrictLogger helper (log.Fatal when strict, log.Println otherwise).

Machine integers: PowerType is a Go int; the claims only involve small
values, so it is modelled as Int with no wraparound (no arithmetic in the
core ever approaches the int64 bounds). Time is modelled as a Nat clock;
time.AfterFunc(d, f) becomes a timer record with deadline now + d whose
callback may run at any instant at or after the deadline unless Stop() was
called first. The mutex tMu serialises event handling and the fire callback;
accordingly the model interleaves whole recv / fire steps atomically.
-/

namespace Mqttshutdownd

/-- power_alarm.go: the power-type enumeration constants. -/
def PowerTypeUtility : Int := 1

def PowerTypeGenerator : Int := 2

def PowerTypeBattery : Int := 3

def PowerTypeSolar : Int := 4

def PowerTypeUnknown : Int := 5

def PowerTypeOther : Int := 6

/-- power_alarm.go: PowerAlarmMessage, the shape of messages on the topic.
JSON keys: Online is "up", PowerType is "type", Scope is "scope". -/
structure PowerAlarmMessage where
  Online : Bool
  PowerType : Int
  Scope : String
deriving Repr, DecidableEq

/-- power_alarm.go lines 25-30: Valid() returns false iff PowerType lies
outside PowerTypeUtility..PowerTypeOther. -/
def PowerAlarmMessage.Valid (p : PowerAlarmMessage) : Bool :=
  if p.PowerType < PowerTypeUtility ∨ p.PowerType > PowerTypeOther then false else true

/-- The fields of a well-formed JSON object payload that json.Unmarshal reads
into a PowerAlarmMessage; a missing key leaves the Go zero value in place. -/
structure JsonFields where
  up : Option Bool
  typeKey : Option Int
  scope : Option String
deriving Repr, DecidableEq

/-- An inbound raw payload: either a well-formed JSON object (restricted to
the keys the struct decodes, each of the declared type) or a payload that
json.Unmarshal rejects with an error. -/
inductive Payload
  | json (j : JsonFields)
  | malformed (raw : String)
deriving Repr, DecidableEq

/-- main.go line 177: json.Unmarshal into PowerAlarmMessage. On a well-formed
object, absent keys default to the zero values false, 0, and the empty
string; a malformed payload yields an error. -/
def unmarshal : Payload → Option PowerAlarmMessage
  | Payload.json j => some ⟨j.up.getD false, j.typeKey.getD 0, j.scope.getD ("")⟩
  | Payload.malformed _ => none

/-- CEL types used by the declared variable environment (main.go 114-118). -/
inductive CelType
  | intT
  | boolT
  | strT
deriving Repr, DecidableEq

/-- Runtime CEL values over that environment. -/
inductive CelValue
  | int (n : Int)
  | bool (b : Bool)
  | str (s : String)
deriving Repr, DecidableEq

def CelValue.typeOf : CelValue → CelType
  | CelValue.int _ => CelType.intT
  | CelValue.bool _ => CelType.boolT
  | CelValue.str _ => CelType.strT

/-- The fragment of CEL the policy expressions range over: the three declared
variables, literals, !, &&, ||, ==, and integer division (whose
divide-by-zero is CEL's standard source of runtime evaluation errors). -/
inductive CelExpr
  | varPowerType
  | varOnline
  | varScope
  | litInt (n : Int)
  | litBool (b : Bool)
  | litStr (s : String)
  | not (e : CelExpr)
  | and (a b : CelExpr)
  | or (a b : CelExpr)
  | eq (a b : CelExpr)
  | div (a b : CelExpr)
deriving Repr, DecidableEq

/-- Static result type of an expression, as cel-go's checker computes it
(Ast.OutputType); none when the expression does not type-check. -/
def CelExpr.outputType : CelExpr → Option CelType
  | CelExpr.varPowerType => some CelType.intT
  | CelExpr.varOnline => some CelType.boolT
  | CelExpr.varScope => some CelType.strT
  | CelExpr.litInt _ => some CelType.intT
  | CelExpr.litBool _ => some CelType.boolT
  | CelExpr.litStr _ => some CelType.strT
  | CelExpr.not e =>
    if e.outputType = some CelType.boolT then some CelType.boolT else none
  | CelExpr.and a b =>
    if a.outputType = some CelType.boolT ∧ b.outputType = some CelType.boolT then
      some CelType.boolT
    else none
  | CelExpr.or a b =>
    if a.outputType = some CelType.boolT ∧ b.outputType = some CelType.boolT then
      some CelType.boolT
    else none
  | CelExpr.eq a b =>
    match a.outputType, b.outputType with
    | some ta, some tb => if ta = tb then some CelType.boolT else none
    | _, _ => none
  | CelExpr.div a b =>
    if a.outputType = some CelType.intT ∧ b.outputType = some CelType.intT then
      some CelType.intT
    else none

/-- Program.Eval with the three variables bound from the message
(main.go 190-194 and 211-215); none models a non-nil evaluation error.
&& and || use CEL's error-absorbing semantics; integer division by zero
errors, as in CEL. -/
def CelExpr.eval (m : PowerAlarmMessage) : CelExpr → Option CelValue
  | CelExpr.varPowerType => some (CelValue.int m.PowerType)
  | CelExpr.varOnline => some (CelValue.bool m.Online)
  | CelExpr.varScope => some (CelValue.str m.Scope)
  | CelExpr.litInt n => some (CelValue.int n)
  | CelExpr.litBool b => some (CelValue.bool b)
  | CelExpr.litStr s => some (CelValue.str s)
  | CelExpr.not e =>
    match e.eval m with
    | some (CelValue.bool b) => some (CelValue.bool (!b))
    | _ => none
  | CelExpr.and a b =>
    match a.eval m, b.eval m with
    | some (CelValue.bool false), _ => some (CelValue.bool false)
    | _, some (CelValue.bool false) => some (CelValue.bool false)
    | some (CelValue.bool true), some (CelValue.bool true) => some (CelValue.bool true)
    | _, _ => none
  | CelExpr.or a b =>
    match a.eval m, b.eval m with
    | some (CelValue.bool true), _ => some (CelValue.bool true)
    | _, some (CelValue.bool true) => some (CelValue.bool true)
    | some (CelValue.bool false), some (CelValue.bool false) => some (CelValue.bool false)
    | _, _ => none
  | CelExpr.eq a b =>
    match a.eval m, b.eval m with
    | some va, some vb =>
      if va.typeOf = vb.typeOf then some (CelValue.bool (decide (va = vb))) else none
    | _, _ => none
  | CelExpr.div a b =>
    match a.eval m, b.eval m with
    | some (CelValue.int x), some (CelValue.int y) =>
      if y = 0 then none else some (CelValue.int (Int.tdiv x y))
    | _, _ => none

/-- The CEL text "!online" from the round-trip and fire scenarios. -/
def exprNotOnline : CelExpr := CelExpr.not CelExpr.varOnline

/-- The CEL text "online" from the round-trip and fire scenarios. -/
def exprOnline : CelExpr := CelExpr.varOnline

/-- The default -down-expr text "!online && powerType == 1" (main.go 52). -/
def defaultDownExpr : CelExpr :=
  CelExpr.and (CelExpr.not CelExpr.varOnline)
    (CelExpr.eq CelExpr.varPowerType (CelExpr.litInt 1))

/-- The default -recovered-expr text "online && powerType == 1" (main.go 53). -/
def defaultRecoveredExpr : CelExpr :=
  CelExpr.and CelExpr.varOnline
    (CelExpr.eq CelExpr.varPowerType (CelExpr.litInt 1))

/-- A configured expression text, represented by its parse outcome: cel-go's
parser is an external library, so a text is modelled as either the AST it
parses to or an unparseable text. -/
inductive ExprSource
  | parsed (ast : CelExpr)
  | unparseable (raw : String)
deriving Repr, DecidableEq

/-- celEnv.Compile (main.go 122 and 133): the AST, or a non-nil issue. -/
def celCompile : ExprSource → Except String CelExpr
  | ExprSource.parsed ast => Except.ok ast
  | ExprSource.unparseable raw => Except.error ("failed to compile " ++ raw)

/-- The two compiled programs held by main after startup. -/
structure Programs where
  downExprPrg : CelExpr
  recoveredExprPrg : CelExpr
deriving Repr, DecidableEq

/-- main.go lines 122-143: compile -down-expr, log.Fatalf on a compile issue
or a non-boolean output type, then the same for -recovered-expr. The second
component records, in order, the expressions Compile was invoked on. -/
def startup (downSrc recoveredSrc : ExprSource) : Except String Programs × List String :=
  match celCompile downSrc with
  | Except.error e => (Except.error e, ["down-expr"])
  | Except.ok downExprAst =>
    if downExprAst.outputType ≠ some CelType.boolT then
      (Except.error ("-down-expr does not return a boolean"), ["down-expr"])
    else
      match celCompile recoveredSrc with
      | Except.error e => (Except.error e, ["down-expr", "recovered-expr"])
      | Except.ok recoveredExprAst =>
        if recoveredExprAst.outputType ≠ some CelType.boolT then
          (Except.error ("-recovered-expr does not return a boolean"),
           ["down-expr", "recovered-expr"])
        else
          (Except.ok ⟨downExprAst, recoveredExprAst⟩, ["down-expr", "recovered-expr"])

/-- The configuration the event loop reads: -topic, -recovery-period, -strict. -/
structure Config where
  topic : String
  recoveryPeriod : Nat
  strict : Bool
deriving Repr, DecidableEq

/-- One timer created by time.AfterFunc(recoveryPeriod, shutdown callback)
(main.go 201): when it was armed, its deadline, when (if ever) its callback
ran, and whether Stop() has been called on it. -/
structure TimerRec where
  armedAt : Nat
  deadline : Nat
  firedAt : Option Nat
  stopCalled : Bool
deriving Repr, DecidableEq

/-- A timer is outstanding (will still fire) iff it has neither fired nor
been stopped. -/
def TimerRec.scheduled (r : TimerRec) : Bool := r.firedAt.isNone && !r.stopCalled

/-- The goroutine state: the timer variable t (main.go 163) as an index into
the list of timers created so far, plus instrumentation counting how many
times each compiled program has been evaluated. -/
structure SysState where
  t : Option Nat
  timers : List TimerRec
  downEvals : Nat
  recoveredEvals : Nat
deriving Repr, DecidableEq

/-- The state when the goroutine starts: t is nil, no timer exists. -/
def initState : SysState := ⟨none, [], 0, 0⟩

/-- The shutdown invocations so far: the instants at which a timer callback
ran "shutdown -h now". -/
def SysState.shutdowns (s : SysState) : List Nat :=
  s.timers.filterMap (fun r => r.firedAt)

/-- Replace the element at an index, leaving the list unchanged when the
index is out of range. -/
def modifyIdx {α : Type} : List α → Nat → (α → α) → List α
  | [], _, _ => []
  | a :: rest, 0, f => f a :: rest
  | a :: rest, n + 1, f => a :: modifyIdx rest n f

/-- StrictLogger: under -strict the message is log.Fatal (some, fatal);
otherwise it is log.Println and processing continues (none). -/
def strictLog (strict : Bool) (msg : String) : Option String :=
  if strict then some msg else none

/-- main.go lines 185-226, the locked section handling one validated message:
when t is nil, evaluate downExprPrg — a nil timer variable means Idle — and
on true create the timer and store its handle; when t is non-nil, evaluate
recoveredExprPrg and on true Stop() the stored timer and set t to nil. An
evaluation error is log.Fatalf (fatal: some message), as is the out.Value()
bool type assertion failing. -/
def handleAlarm (cfg : Config) (prgs : Programs) (s : SysState) (m : PowerAlarmMessage)
    (now : Nat) : SysState × Option String :=
  match s.t with
  | none =>
    let s1 : SysState := { s with downEvals := s.downEvals + 1 }
    match prgs.downExprPrg.eval m with
    | none => (s1, some ("failed to evaluate -down-expr"))
    | some (CelValue.bool triggerShutdown) =>
      if triggerShutdown then
        ({ s1 with
            t := some s1.timers.length,
            timers := s1.timers ++
              [{ armedAt := now, deadline := now + cfg.recoveryPeriod,
                 firedAt := none, stopCalled := false }] }, none)
      else (s1, none)
    | some _ => (s1, some ("panic: interface conversion to bool"))
  | some id =>
    let s1 : SysState := { s with recoveredEvals := s.recoveredEvals + 1 }
    match prgs.recoveredExprPrg.eval m with
    | none => (s1, some ("failed to evaluate -recovered-expr"))
    | some (CelValue.bool triggerRecovery) =>
      if triggerRecovery then
        ({ s1 with
            t := none,
            timers := modifyIdx s1.timers id (fun r => { r with stopCalled := true }) }, none)
      else (s1, none)
    | some _ => (s1, some ("panic: interface conversion to bool"))

/-- main.go lines 170-226: one received message. The topic check, the
json.Unmarshal, and the Valid() check each route a failure through
StrictLogger and continue (dropping the message); a message passing all
three reaches handleAlarm. -/
def recvMessage (cfg : Config) (prgs : Programs) (s : SysState) (msgTopic : String)
    (payload : Payload) (now : Nat) : SysState × Option String :=
  if msgTopic ≠ cfg.topic then
    (s, strictLog cfg.strict ("received message on unexpected topic"))
  else
    match unmarshal payload with
    | none => (s, strictLog cfg.strict ("failed to unmarshal message"))
    | some m =>
      if ¬ m.Valid then (s, strictLog cfg.strict ("invalid message schema"))
      else handleAlarm cfg prgs s m now

/-- main.go lines 201-208: the AfterFunc callback of timer id running at
instant now. It runs only if the timer has neither fired nor been stopped
and its delay has elapsed; it records the shutdown invocation and touches
nothing else — in particular it does not clear the variable t. -/
def fireTimer (s : SysState) (id : Nat) (now : Nat) : SysState :=
  match s.timers[id]? with
  | some r =>
    if r.firedAt = none ∧ r.stopCalled = false ∧ r.deadline ≤ now then
      { s with timers := modifyIdx s.timers id (fun r0 => { r0 with firedAt := some now }) }
    else s
  | none => s

/-- One occurrence the goroutine or a timer callback serialises on tMu:
either a message received from the channel at some instant, or the fire
callback of a created timer running at some instant. -/
inductive InputStep
  | recv (now : Nat) (msgTopic : String) (payload : Payload)
  | fire (now : Nat) (id : Nat)
deriving Repr, DecidableEq

/-- Advance the system by one step; once a fatal log call has occurred the
process is dead and nothing further runs. -/
def step (cfg : Config) (prgs : Programs) (acc : SysState × Option String)
    (i : InputStep) : SysState × Option String :=
  match acc with
  | (s, some e) => (s, some e)
  | (s, none) =>
    match i with
    | InputStep.recv now msgTopic payload => recvMessage cfg prgs s msgTopic payload now
    | InputStep.fire now id => (fireTimer s id now, none)

/-- Run the goroutine from its initial state over a sequence of steps. -/
def run (cfg : Config) (prgs : Programs) (inputs : List InputStep) :
    SysState × Option String :=
  inputs.foldl (step cfg prgs) (initState, none)

/-- The whole process: startup compilation first (main.go 122-143), and only
if it succeeds does the event loop run. Returns the final state, the list of
Compile invocations, and the fatal message if the process died. -/
def runSystem (cfg : Config) (downSrc recoveredSrc : ExprSource)
    (inputs : List InputStep) : SysState × List String × Option String :=
  match startup downSrc recoveredSrc with
  | (Except.error e, compileLog) => (initState, compileLog, some e)
  | (Except.ok prgs, compileLog) =>
    match run cfg prgs inputs with
    | (s, fatal) => (s, compileLog, fatal)

/-- A down expression that type-checks to boolean at startup yet fails at
evaluation time: "powerType / 0 == 1" divides by zero on every event. -/
def divZeroDownExpr : CelExpr :=
  CelExpr.eq (CelExpr.div CelExpr.varPowerType (CelExpr.litInt 0)) (CelExpr.litInt 1)

/-- An expression source that cel-go either cannot parse or checks to a
non-boolean result type — the two startup rejection causes. -/
def badSource (src : ExprSource) : Prop :=
  (∃ e, celCompile src = Except.error e) ∨
  (∃ ast, celCompile src = Except.ok ast ∧ ast.outputType ≠ some CelType.boolT)

/-- The inductive invariant of the goroutine state: the stored timer variable
always names the most recently created timer, and a created timer is
un-Stop()ed exactly when the variable currently names it. -/
def StrongInv (s : SysState) : Prop :=
  (∀ id, s.t = some id → id + 1 = s.timers.length) ∧
  (∀ i r, s.timers[i]? = some r → (r.stopCalled = false ↔ s.t = some i))

/-- C3: for every deserialized power event, validation succeeds iff powerType
lies in the closed range 1..6; an out-of-range powerType is reported as an
invalid message schema; and neither online nor scope affects validity. -/
theorem valid_iff_powerType_in_range (p : PowerAlarmMessage) :
    (p.Valid = true ↔ 1 ≤ p.PowerType ∧ p.PowerType ≤ 6) ∧
    (∀ (o : Bool) (sc : String), PowerAlarmMessage.Valid ⟨o, p.PowerType, sc⟩ = p.Valid) ∧
    (∀ (cfg : Config) (prgs : Programs) (s : SysState) (now : Nat), p.Valid = false →
      recvMessage cfg prgs s cfg.topic
          (Payload.json ⟨some p.Online, some p.PowerType, some p.Scope⟩) now =
        (s, strictLog cfg.strict ("invalid message schema"))) := by
  refine ⟨?_, ?_, ?_⟩
  · simp only [PowerAlarmMessage.Valid, PowerTypeUtility, PowerTypeOther]
    split
    · rename_i h
      simp only [Bool.false_eq_true, false_iff]
      omega
    · rename_i h
      simp only [true_iff]
      omega
  · intro o sc
    rfl
  · intro cfg prgs s now hval
    have hm : unmarshal (Payload.json ⟨some p.Online, some p.PowerType, some p.Scope⟩) =
        some p := rfl
    simp [recvMessage, hm, hval]

/-- C3 witness at a concrete out-of-range event. -/
theorem valid_iff_powerType_in_range_witness :
    ((⟨true, 7, "global"⟩ : PowerAlarmMessage).Valid = true ↔
      1 ≤ (7 : Int) ∧ (7 : Int) ≤ 6) ∧
    PowerAlarmMessage.Valid ⟨false, 7, "local"⟩ =
      (⟨true, 7, "global"⟩ : PowerAlarmMessage).Valid ∧
    recvMessage ⟨"power/alarms", 3, false⟩ ⟨exprNotOnline, exprOnline⟩ initState
        ("power/alarms") (Payload.json ⟨some true, some 7, some ("global")⟩) 0 =
      (initState, strictLog false ("invalid message schema")) := by
  have h := valid_iff_powerType_in_range ⟨true, 7, "global"⟩
  exact ⟨h.1, h.2.1 false ("local"),
    h.2.2 ⟨"power/alarms", 3, false⟩ ⟨exprNotOnline, exprOnline⟩ initState 0 (by decide)⟩

/-- C1: each call of the locked event handler evaluates exactly one policy
expression, chosen by the debounce state: with no pending timer (t nil,
Idle) only the down expression is evaluated; with a pending handle (Armed)
only the recovered expression is evaluated; never both. -/
theorem one_expression_per_event (cfg : Config) (prgs : Programs) (s : SysState)
    (m : PowerAlarmMessage) (now : Nat) :
    (s.t = none →
      (handleAlarm cfg prgs s m now).1.downEvals = s.downEvals + 1 ∧
      (handleAlarm cfg prgs s m now).1.recoveredEvals = s.recoveredEvals) ∧
    (s.t ≠ none →
      (handleAlarm cfg prgs s m now).1.downEvals = s.downEvals ∧
      (handleAlarm cfg prgs s m now).1.recoveredEvals = s.recoveredEvals + 1) := by
  constructor
  · intro ht
    rcases hev : prgs.downExprPrg.eval m with _ | v
    · simp [handleAlarm, ht, hev]
    · rcases v with n | b | sv
      · simp [handleAlarm, ht, hev]
      · rcases b <;> simp [handleAlarm, ht, hev]
      · simp [handleAlarm, ht, hev]
  · intro ht
    rcases hts : s.t with _ | id
    · exact absurd hts ht
    · rcases hev : prgs.recoveredExprPrg.eval m with _ | v
      · simp [handleAlarm, hts, hev]
      · rcases v with n | b | sv
        · simp [handleAlarm, hts, hev]
        · rcases b <;> simp [handleAlarm, hts, hev]
        · simp [handleAlarm, hts, hev]

/-- C1 witness: the Idle mode at the initial state and the Armed mode at a
state holding a timer handle, at concrete inputs. -/
theorem one_expression_per_event_witness :
    ((handleAlarm ⟨"power/alarms", 3, false⟩ ⟨exprNotOnline, exprOnline⟩ initState
        ⟨false, 1, "global"⟩ 0).1.downEvals = 1 ∧
     (handleAlarm ⟨"power/alarms", 3, false⟩ ⟨exprNotOnline, exprOnline⟩ initState
        ⟨false, 1, "global"⟩ 0).1.recoveredEvals = 0) ∧
    ((handleAlarm ⟨"power/alarms", 3, false⟩ ⟨exprNotOnline, exprOnline⟩
        ⟨some 0, [⟨0, 3, none, false⟩], 1, 0⟩ ⟨false, 1, "global"⟩ 1).1.downEvals = 1 ∧
     (handleAlarm ⟨"power/alarms", 3, false⟩ ⟨exprNotOnline, exprOnline⟩
        ⟨some 0, [⟨0, 3, none, false⟩], 1, 0⟩ ⟨false, 1, "global"⟩ 1).1.recoveredEvals = 1) := by
  have h1 := one_expression_per_event ⟨"power/alarms", 3, false⟩ ⟨exprNotOnline, exprOnline⟩
    initState ⟨false, 1, "global"⟩ 0
  have h2 := one_expression_per_event ⟨"power/alarms", 3, false⟩ ⟨exprNotOnline, exprOnline⟩
    ⟨some 0, [⟨0, 3, none, false⟩], 1, 0⟩ ⟨false, 1, "global"⟩ 1
  exact ⟨h1.1 rfl, h2.2 (by decide)⟩

/-- C7: with strict off, a message rejected before the debounce engine — an
unexpected topic, an unmarshal failure, or a failed Valid() check — is
logged and dropped, leaving the whole state (timer handle and evaluation
counters alike) exactly as it was, with no fatal exit. -/
theorem nonstrict_rejection_leaves_state (cfg : Config) (prgs : Programs) (s : SysState)
    (msgTopic : String) (payload : Payload) (now : Nat)
    (hstrict : cfg.strict = false)
    (hrej : msgTopic ≠ cfg.topic ∨ unmarshal payload = none ∨
      ∃ m, unmarshal payload = some m ∧ m.Valid = false) :
    recvMessage cfg prgs s msgTopic payload now = (s, none) := by
  rcases hrej with h | h | ⟨m, hm, hv⟩
  · simp [recvMessage, h, strictLog, hstrict]
  · by_cases ht : msgTopic ≠ cfg.topic
    · simp [recvMessage, ht, strictLog, hstrict]
    · simp [recvMessage, ht, h, strictLog, hstrict]
  · by_cases ht : msgTopic ≠ cfg.topic
    · simp [recvMessage, ht, strictLog, hstrict]
    · simp [recvMessage, ht, hm, hv, strictLog, hstrict]

/-- C7 witness: a malformed payload on the right topic, dropped in place. -/
theorem nonstrict_rejection_leaves_state_witness :
    recvMessage ⟨"power/alarms", 3, false⟩ ⟨exprNotOnline, exprOnline⟩
        ⟨some 0, [⟨0, 3, none, false⟩], 1, 0⟩ ("power/alarms")
        (Payload.malformed ("not json")) 2 =
      (⟨some 0, [⟨0, 3, none, false⟩], 1, 0⟩, none) :=
  nonstrict_rejection_leaves_state ⟨"power/alarms", 3, false⟩ ⟨exprNotOnline, exprOnline⟩
    ⟨some 0, [⟨0, 3, none, false⟩], 1, 0⟩ ("power/alarms") (Payload.malformed ("not json")) 2
    rfl (Or.inr (Or.inl rfl))

/-- C10: a well-formed JSON payload whose type key is absent (or out of
range, the zero default included) unmarshals successfully — an absent key
leaving powerType 0 — then fails Valid(), so it is rejected as an invalid
schema rather than malformed; in non-strict mode it is dropped with the
state untouched, never reaching the policy evaluator. -/
theorem missing_type_key_invalid_schema (cfg : Config) (prgs : Programs) (s : SysState)
    (now : Nat) (j : JsonFields)
    (hstrict : cfg.strict = false)
    (htype : j.typeKey = none ∨ ∃ n, j.typeKey = some n ∧ (n < 1 ∨ 6 < n)) :
    (∃ m, unmarshal (Payload.json j) = some m ∧
      (j.typeKey = none → m.PowerType = 0) ∧ m.Valid = false) ∧
    recvMessage cfg prgs s cfg.topic (Payload.json j) now = (s, none) := by
  have hm : unmarshal (Payload.json j) =
      some ⟨j.up.getD false, j.typeKey.getD 0, j.scope.getD ("")⟩ := rfl
  have hpt : ∀ m, unmarshal (Payload.json j) = some m → m.PowerType = j.typeKey.getD 0 := by
    intro m h
    rw [hm] at h
    cases h
    rfl
  have hv : (PowerAlarmMessage.mk (j.up.getD false) (j.typeKey.getD 0)
      (j.scope.getD (""))).Valid = false := by
    simp only [PowerAlarmMessage.Valid, PowerTypeUtility, PowerTypeOther]
    rcases htype with h | ⟨n, hn, hr⟩
    · rw [h]
      norm_num
    · rw [hn]
      simp only [Option.getD_some]
      rw [if_pos]
      omega
  refine ⟨⟨_, hm, ?_, hv⟩, ?_⟩
  · intro h
    rw [h]
    rfl
  · simp [recvMessage, hm, hv, strictLog, hstrict]

/-- C10 witness: the payload omitting the type key entirely. -/
theorem missing_type_key_invalid_schema_witness :
    (∃ m, unmarshal (Payload.json ⟨some false, none, some ("global")⟩) = some m ∧
      ((⟨some false, none, some ("global")⟩ : JsonFields).typeKey = none →
        m.PowerType = 0) ∧ m.Valid = false) ∧
    recvMessage ⟨"power/alarms", 3, false⟩ ⟨exprNotOnline, exprOnline⟩ initState
        ("power/alarms") (Payload.json ⟨some false, none, some ("global")⟩) 0 =
      (initState, none) :=
  missing_type_key_invalid_schema ⟨"power/alarms", 3, false⟩ ⟨exprNotOnline, exprOnline⟩
    initState 0 ⟨some false, none, some ("global")⟩ rfl (Or.inl rfl)

/-- modifyIdx never changes the length of the list. -/
theorem modifyIdx_length {α : Type} (l : List α) (n : Nat) (f : α → α) :
    (modifyIdx l n f).length = l.length := by
  induction l generalizing n with
  | nil => rfl
  | cons a rest ih =>
    cases n with
    | zero => rfl
    | succ k => simp [modifyIdx, ih]

/-- Lookup after modifyIdx: the modified index gets f applied, every other
index is untouched. -/
theorem modifyIdx_getElem? {α : Type} (l : List α) (n : Nat) (f : α → α) (i : Nat) :
    (modifyIdx l n f)[i]? = if i = n then Option.map f l[i]? else l[i]? := by
  induction l generalizing n i with
  | nil => simp [modifyIdx]
  | cons a rest ih =>
    cases n with
    | zero =>
      cases i with
      | zero => simp [modifyIdx]
      | succ k => simp [modifyIdx]
    | succ nk =>
      cases i with
      | zero => simp [modifyIdx]
      | succ k => simpa [modifyIdx] using ih nk k

/-- C5 counterexample: with strict off, a runtime evaluation failure of the
down expression is NOT merely logged with the event dropped — the handler
exits fatally (log.Fatalf), even though startup accepted the expression as
boolean-typed. -/
theorem eval_failure_fatal_despite_nonstrict :
    (startup (ExprSource.parsed divZeroDownExpr) (ExprSource.parsed exprOnline)).1 =
      Except.ok ⟨divZeroDownExpr, exprOnline⟩ ∧
    (handleAlarm ⟨"power/alarms", 3, false⟩ ⟨divZeroDownExpr, exprOnline⟩ initState
        ⟨false, 1, "global"⟩ 0).2 = some ("failed to evaluate -down-expr") ∧
    some ("failed to evaluate -down-expr") ≠ (none : Option String) := by
  refine ⟨rfl, rfl, ?_⟩
  intro h
  cases h

/-- C5 amended: a runtime evaluation failure of a compiled policy expression
is unconditionally fatal to the process — log.Fatalf — for every
configuration, the strict flag notwithstanding, in both the Idle and the
Armed evaluation paths. -/
theorem eval_failure_always_fatal (cfg : Config) (prgs : Programs) (s : SysState)
    (m : PowerAlarmMessage) (now : Nat) :
    (s.t = none → prgs.downExprPrg.eval m = none →
      (handleAlarm cfg prgs s m now).2 = some ("failed to evaluate -down-expr")) ∧
    (∀ id, s.t = some id → prgs.recoveredExprPrg.eval m = none →
      (handleAlarm cfg prgs s m now).2 = some ("failed to evaluate -recovered-expr")) := by
  constructor
  · intro ht hev
    simp [handleAlarm, ht, hev]
  · intro id ht hev
    simp [handleAlarm, ht, hev]

/-- C5 amended witness: the divide-by-zero expression under a non-strict
configuration, in the Idle path. -/
theorem eval_failure_always_fatal_witness :
    (handleAlarm ⟨"power/alarms", 3, false⟩ ⟨divZeroDownExpr, exprOnline⟩ initState
        ⟨false, 1, "global"⟩ 0).2 = some ("failed to evaluate -down-expr") :=
  (eval_failure_always_fatal ⟨"power/alarms", 3, false⟩ ⟨divZeroDownExpr, exprOnline⟩
    initState ⟨false, 1, "global"⟩ 0).1 rfl rfl

/-- C9: the fire callback does not clear the stored timer variable, so after
a fire the engine still holds the handle (Armed): the next event is
evaluated against the recovered expression only, no new timer is created,
and the handle is cleared exactly when the recovered expression holds. -/
theorem fired_timer_handle_retained (cfg : Config) (prgs : Programs) (s : SysState)
    (id fnow : Nat) (m : PowerAlarmMessage) (enow : Nat)
    (ht : s.t = some id) :
    (fireTimer s id fnow).t = some id ∧
    (handleAlarm cfg prgs (fireTimer s id fnow) m enow).1.downEvals =
      (fireTimer s id fnow).downEvals ∧
    (handleAlarm cfg prgs (fireTimer s id fnow) m enow).1.recoveredEvals =
      (fireTimer s id fnow).recoveredEvals + 1 ∧
    (handleAlarm cfg prgs (fireTimer s id fnow) m enow).1.timers.length =
      s.timers.length ∧
    (prgs.recoveredExprPrg.eval m = some (CelValue.bool false) →
      (handleAlarm cfg prgs (fireTimer s id fnow) m enow).1.t = some id) ∧
    (prgs.recoveredExprPrg.eval m = some (CelValue.bool true) →
      (handleAlarm cfg prgs (fireTimer s id fnow) m enow).1.t = none) := by
  have htf : (fireTimer s id fnow).t = some id := by
    rw [← ht]
    rcases hg : s.timers[id]? with _ | r
    · simp [fireTimer, hg]
    · simp only [fireTimer, hg]
      split
      · rfl
      · rfl
  have hlf : (fireTimer s id fnow).timers.length = s.timers.length := by
    rcases hg : s.timers[id]? with _ | r
    · simp [fireTimer, hg]
    · simp only [fireTimer, hg]
      split
      · simp [modifyIdx_length]
      · rfl
  refine ⟨htf, ?_⟩
  rcases hev : prgs.recoveredExprPrg.eval m with _ | v
  · simp [handleAlarm, htf, hev, hlf]
  · rcases v with n | b | sv
    · simp [handleAlarm, htf, hev, hlf]
    · rcases b with _ | _
      · simp [handleAlarm, htf, hev, hlf]
      · simp [handleAlarm, htf, hev, hlf, modifyIdx_length]

    · simp [handleAlarm, htf, hev, hlf]

/-- C9 witness: a fired timer at a concrete armed state, followed by a
non-disarming event. -/
theorem fired_timer_handle_retained_witness :
    (fireTimer ⟨some 0, [⟨0, 3, none, false⟩], 1, 0⟩ 0 3).t = some 0 ∧
    (handleAlarm ⟨"power/alarms", 3, false⟩ ⟨exprNotOnline, exprOnline⟩
        (fireTimer ⟨some 0, [⟨0, 3, none, false⟩], 1, 0⟩ 0 3)
        ⟨false, 1, "global"⟩ 4).1.downEvals =
      (fireTimer ⟨some 0, [⟨0, 3, none, false⟩], 1, 0⟩ 0 3).downEvals ∧
    (handleAlarm ⟨"power/alarms", 3, false⟩ ⟨exprNotOnline, exprOnline⟩
        (fireTimer ⟨some 0, [⟨0, 3, none, false⟩], 1, 0⟩ 0 3)
        ⟨false, 1, "global"⟩ 4).1.recoveredEvals =
      (fireTimer ⟨some 0, [⟨0, 3, none, false⟩], 1, 0⟩ 0 3).recoveredEvals + 1 ∧
    (handleAlarm ⟨"power/alarms", 3, false⟩ ⟨exprNotOnline, exprOnline⟩
        (fireTimer ⟨some 0, [⟨0, 3, none, false⟩], 1, 0⟩ 0 3)
        ⟨false, 1, "global"⟩ 4).1.timers.length = 1 ∧
    ((exprOnline.eval ⟨false, 1, "global"⟩ = some (CelValue.bool false)) →
      (handleAlarm ⟨"power/alarms", 3, false⟩ ⟨exprNotOnline, exprOnline⟩
          (fireTimer ⟨some 0, [⟨0, 3, none, false⟩], 1, 0⟩ 0 3)
          ⟨false, 1, "global"⟩ 4).1.t = some 0) ∧
    ((exprOnline.eval ⟨false, 1, "global"⟩ = some (CelValue.bool true)) →
      (handleAlarm ⟨"power/alarms", 3, false⟩ ⟨exprNotOnline, exprOnline⟩
          (fireTimer ⟨some 0, [⟨0, 3, none, false⟩], 1, 0⟩ 0 3)
          ⟨false, 1, "global"⟩ 4).1.t = none) :=
  fired_timer_handle_retained ⟨"power/alarms", 3, false⟩ ⟨exprNotOnline, exprOnline⟩
    ⟨some 0, [⟨0, 3, none, false⟩], 1, 0⟩ 0 3 ⟨false, 1, "global"⟩ 4 rfl

/-- Startup compiles down-expr first and recovered-expr second, each at most
once; both exactly once whenever startup succeeds. -/
theorem startup_compile_once (d r : ExprSource) :
    ((startup d r).2 = ["down-expr"] ∨
      (startup d r).2 = ["down-expr", "recovered-expr"]) ∧
    (∀ prgs, (startup d r).1 = Except.ok prgs →
      (startup d r).2 = ["down-expr", "recovered-expr"]) := by
  rcases d with dast | draw
  · rcases r with rast | rraw
    · by_cases hdt : dast.outputType = some CelType.boolT
      · by_cases hrt : rast.outputType = some CelType.boolT
        · simp [startup, celCompile, hdt, hrt]
        · simp [startup, celCompile, hdt, hrt]
      · simp [startup, celCompile, hdt]
    · by_cases hdt : dast.outputType = some CelType.boolT
      · simp [startup, celCompile, hdt]
      · simp [startup, celCompile, hdt]
  · simp [startup, celCompile]

/-- A bad source makes startup fail. -/
theorem badSource_startup_error (d r : ExprSource)
    (hbad : badSource d ∨ badSource r) :
    ∃ e, (startup d r).1 = Except.error e := by
  rcases d with dast | draw
  · rcases r with rast | rraw
    · by_cases hdt : dast.outputType = some CelType.boolT
      · by_cases hrt : rast.outputType = some CelType.boolT
        · exfalso
          rcases hbad with hb | hb
          · rcases hb with ⟨e, hc⟩ | ⟨ast, hc, hty⟩
            · simp [celCompile] at hc
            · simp only [celCompile, Except.ok.injEq] at hc
              exact hty (hc ▸ hdt)
          · rcases hb with ⟨e, hc⟩ | ⟨ast, hc, hty⟩
            · simp [celCompile] at hc
            · simp only [celCompile, Except.ok.injEq] at hc
              exact hty (hc ▸ hrt)
        · exact ⟨"-recovered-expr does not return a boolean",
            by simp [startup, celCompile, hdt, hrt]⟩
      · exact ⟨"-down-expr does not return a boolean",
          by simp [startup, celCompile, hdt]⟩
    · by_cases hdt : dast.outputType = some CelType.boolT
      · exact ⟨"failed to compile " ++ rraw, by simp [startup, celCompile, hdt]⟩
      · exact ⟨"-down-expr does not return a boolean",
          by simp [startup, celCompile, hdt]⟩
  · exact ⟨"failed to compile " ++ draw, by simp [startup, celCompile]⟩

/-- C8: a policy expression that fails to compile or is not boolean-typed is
fatal at startup, before any event is processed (the final state is still
the initial one, whatever the inputs); and Compile runs at most once per
expression, exactly once each whenever startup succeeds. -/
theorem startup_rejects_bad_expressions (cfg : Config) (downSrc recoveredSrc : ExprSource)
    (inputs : List InputStep)
    (hbad : badSource downSrc ∨ badSource recoveredSrc) :
    (runSystem cfg downSrc recoveredSrc inputs).2.2.isSome = true ∧
    (runSystem cfg downSrc recoveredSrc inputs).1 = initState ∧
    (runSystem cfg downSrc recoveredSrc inputs).2.1.count ("down-expr") ≤ 1 ∧
    (runSystem cfg downSrc recoveredSrc inputs).2.1.count ("recovered-expr") ≤ 1 ∧
    (∀ (d r : ExprSource) (prgs : Programs), (startup d r).1 = Except.ok prgs →
      (startup d r).2 = ["down-expr", "recovered-expr"]) := by
  obtain ⟨e, he⟩ := badSource_startup_error downSrc recoveredSrc hbad
  rcases hs : startup downSrc recoveredSrc with ⟨res, lg⟩
  rw [hs] at he
  simp only at he
  subst he
  have hlog := (startup_compile_once downSrc recoveredSrc).1
  rw [hs] at hlog
  simp only at hlog
  have hrs : runSystem cfg downSrc recoveredSrc inputs = (initState, lg, some e) := by
    simp [runSystem, hs]
  rw [hrs]
  refine ⟨rfl, rfl, ?_, ?_, ?_⟩
  · rcases hlog with h | h <;> rw [h] <;> simp [List.count_cons]
  · rcases hlog with h | h <;> rw [h] <;> simp [List.count_cons]
  · intro d r prgs hok
    exact (startup_compile_once d r).2 prgs hok

/-- C8 witness: the spec's own example, the bare expression "powerType",
which parses but has integer type. -/
theorem startup_rejects_bad_expressions_witness :
    (runSystem ⟨"power/alarms", 3, false⟩ (ExprSource.parsed CelExpr.varPowerType)
        (ExprSource.parsed exprOnline) [InputStep.fire 0 0]).2.2.isSome = true ∧
    (runSystem ⟨"power/alarms", 3, false⟩ (ExprSource.parsed CelExpr.varPowerType)
        (ExprSource.parsed exprOnline) [InputStep.fire 0 0]).1 = initState ∧
    (runSystem ⟨"power/alarms", 3, false⟩ (ExprSource.parsed CelExpr.varPowerType)
        (ExprSource.parsed exprOnline) [InputStep.fire 0 0]).2.1.count ("down-expr") ≤ 1 ∧
    (runSystem ⟨"power/alarms", 3, false⟩ (ExprSource.parsed CelExpr.varPowerType)
        (ExprSource.parsed exprOnline) [InputStep.fire 0 0]).2.1.count ("recovered-expr") ≤ 1 ∧
    (∀ (d r : ExprSource) (prgs : Programs), (startup d r).1 = Except.ok prgs →
      (startup d r).2 = ["down-expr", "recovered-expr"]) :=
  startup_rejects_bad_expressions ⟨"power/alarms", 3, false⟩
    (ExprSource.parsed CelExpr.varPowerType) (ExprSource.parsed exprOnline)
    [InputStep.fire 0 0]
    (Or.inl (Or.inr ⟨CelExpr.varPowerType, rfl, by decide⟩))

/-- C4: with down-expr "!online" and recovered-expr "online", the event pair
online:false then online:true arms a timer on the first event, Stop()s it
and clears the handle on the second, ends Idle, and the shutdown action is
never invoked. -/
theorem arm_disarm_round_trip (pt pt2 : Int) (sc sc2 topic : String) (strict : Bool)
    (D tau1 tau2 : Nat)
    (hv1 : PowerAlarmMessage.Valid ⟨false, pt, sc⟩ = true)
    (hv2 : PowerAlarmMessage.Valid ⟨true, pt2, sc2⟩ = true) :
    handleAlarm ⟨topic, D, strict⟩ ⟨exprNotOnline, exprOnline⟩ initState
        ⟨false, pt, sc⟩ tau1 =
      (⟨some 0, [⟨tau1, tau1 + D, none, false⟩], 1, 0⟩, none) ∧
    handleAlarm ⟨topic, D, strict⟩ ⟨exprNotOnline, exprOnline⟩
        ⟨some 0, [⟨tau1, tau1 + D, none, false⟩], 1, 0⟩ ⟨true, pt2, sc2⟩ tau2 =
      (⟨none, [⟨tau1, tau1 + D, none, true⟩], 1, 1⟩, none) ∧
    SysState.shutdowns ⟨none, [⟨tau1, tau1 + D, none, true⟩], 1, 1⟩ = [] := by
  refine ⟨rfl, ?_, rfl⟩
  simp [handleAlarm, exprOnline, CelExpr.eval, modifyIdx]

/-- C4 witness at concrete inputs. -/
theorem arm_disarm_round_trip_witness :
    handleAlarm ⟨"power/alarms", 3, false⟩ ⟨exprNotOnline, exprOnline⟩ initState
        ⟨false, 1, "global"⟩ 0 =
      (⟨some 0, [⟨0, 0 + 3, none, false⟩], 1, 0⟩, none) ∧
    handleAlarm ⟨"power/alarms", 3, false⟩ ⟨exprNotOnline, exprOnline⟩
        ⟨some 0, [⟨0, 0 + 3, none, false⟩], 1, 0⟩ ⟨true, 1, "global"⟩ 1 =
      (⟨none, [⟨0, 0 + 3, none, true⟩], 1, 1⟩, none) ∧
    SysState.shutdowns ⟨none, [⟨0, 0 + 3, none, true⟩], 1, 1⟩ = [] :=
  arm_disarm_round_trip 1 1 ("global") ("global") ("power/alarms") false 3 0 1
    (by decide) (by decide)

/-- C2: with the same expressions and recovery delay D, the single arming
event online:false arms at tau1 with deadline tau1 + D; a fire attempt
before the deadline does nothing; the callback at tau2 ≥ tau1 + D invokes
the shutdown action, making the invocation list exactly [tau2]; redelivering
the same event afterwards only re-evaluates the recovered expression and
changes nothing else; and a further callback attempt cannot fire again. -/
theorem fire_without_disarm (pt : Int) (sc topic : String) (strict : Bool)
    (D tau0 tau1 tau2 tau3 tau4 : Nat)
    (hv : PowerAlarmMessage.Valid ⟨false, pt, sc⟩ = true)
    (h0 : tau0 < tau1 + D) (h2 : tau1 + D ≤ tau2) :
    handleAlarm ⟨topic, D, strict⟩ ⟨exprNotOnline, exprOnline⟩ initState
        ⟨false, pt, sc⟩ tau1 =
      (⟨some 0, [⟨tau1, tau1 + D, none, false⟩], 1, 0⟩, none) ∧
    fireTimer ⟨some 0, [⟨tau1, tau1 + D, none, false⟩], 1, 0⟩ 0 tau0 =
      ⟨some 0, [⟨tau1, tau1 + D, none, false⟩], 1, 0⟩ ∧
    fireTimer ⟨some 0, [⟨tau1, tau1 + D, none, false⟩], 1, 0⟩ 0 tau2 =
      ⟨some 0, [⟨tau1, tau1 + D, some tau2, false⟩], 1, 0⟩ ∧
    SysState.shutdowns ⟨some 0, [⟨tau1, tau1 + D, some tau2, false⟩], 1, 0⟩ = [tau2] ∧
    handleAlarm ⟨topic, D, strict⟩ ⟨exprNotOnline, exprOnline⟩
        ⟨some 0, [⟨tau1, tau1 + D, some tau2, false⟩], 1, 0⟩ ⟨false, pt, sc⟩ tau3 =
      (⟨some 0, [⟨tau1, tau1 + D, some tau2, false⟩], 1, 1⟩, none) ∧
    fireTimer ⟨some 0, [⟨tau1, tau1 + D, some tau2, false⟩], 1, 1⟩ 0 tau4 =
      ⟨some 0, [⟨tau1, tau1 + D, some tau2, false⟩], 1, 1⟩ := by
  have hnot0 : ¬ (tau1 + D ≤ tau0) := by omega
  refine ⟨rfl, ?_, ?_, rfl, rfl, ?_⟩
  · simp [fireTimer, hnot0]
  · simp [fireTimer, h2, modifyIdx]
  · simp [fireTimer]

/-- C2 witness at concrete inputs. -/
theorem fire_without_disarm_witness :
    handleAlarm ⟨"power/alarms", 3, false⟩ ⟨exprNotOnline, exprOnline⟩ initState
        ⟨false, 1, "global"⟩ 0 =
      (⟨some 0, [⟨0, 0 + 3, none, false⟩], 1, 0⟩, none) ∧
    fireTimer ⟨some 0, [⟨0, 0 + 3, none, false⟩], 1, 0⟩ 0 2 =
      ⟨some 0, [⟨0, 0 + 3, none, false⟩], 1, 0⟩ ∧
    fireTimer ⟨some 0, [⟨0, 0 + 3, none, false⟩], 1, 0⟩ 0 3 =
      ⟨some 0, [⟨0, 0 + 3, some 3, false⟩], 1, 0⟩ ∧
    SysState.shutdowns ⟨some 0, [⟨0, 0 + 3, some 3, false⟩], 1, 0⟩ = [3] ∧
    handleAlarm ⟨"power/alarms", 3, false⟩ ⟨exprNotOnline, exprOnline⟩
        ⟨some 0, [⟨0, 0 + 3, some 3, false⟩], 1, 0⟩ ⟨false, 1, "global"⟩ 4 =
      (⟨some 0, [⟨0, 0 + 3, some 3, false⟩], 1, 1⟩, none) ∧
    fireTimer ⟨some 0, [⟨0, 0 + 3, some 3, false⟩], 1, 1⟩ 0 5 =
      ⟨some 0, [⟨0, 0 + 3, some 3, false⟩], 1, 1⟩ :=
  fire_without_disarm 1 ("global") ("power/alarms") false 3 2 0 3 4 5
    (by decide) (by decide) (by decide)

/-- Lookup in a list extended by one element on the right. -/
theorem getElem?_append_singleton {α : Type} (l : List α) (x : α) (i : Nat) :
    (l ++ [x])[i]? =
      if i < l.length then l[i]? else if i = l.length then some x else none := by
  induction l generalizing i with
  | nil =>
    cases i with
    | zero => simp
    | succ k => simp
  | cons a rest ih =>
    cases i with
    | zero => simp
    | succ k =>
      simpa [Nat.succ_lt_succ_iff] using ih k

/-- handleAlarm preserves the debounce invariant. -/
theorem strongInv_handleAlarm (cfg : Config) (prgs : Programs) (s : SysState)
    (m : PowerAlarmMessage) (now : Nat) (h : StrongInv s) :
    StrongInv (handleAlarm cfg prgs s m now).1 := by
  obtain ⟨h1, h2⟩ := h
  rcases hts : s.t with _ | id
  · rcases hev : prgs.downExprPrg.eval m with _ | v
    · have hx : (handleAlarm cfg prgs s m now).1 =
          { s with downEvals := s.downEvals + 1 } := by
        simp [handleAlarm, hts, hev]
      rw [hx]
      exact ⟨h1, h2⟩
    · rcases v with n | b | sv
      · have hx : (handleAlarm cfg prgs s m now).1 =
            { s with downEvals := s.downEvals + 1 } := by
          simp [handleAlarm, hts, hev]
        rw [hx]
        exact ⟨h1, h2⟩
      · rcases b with _ | _
        · have hx : (handleAlarm cfg prgs s m now).1 =
              { s with downEvals := s.downEvals + 1 } := by
            simp [handleAlarm, hts, hev]
          rw [hx]
          exact ⟨h1, h2⟩
        · have hx : (handleAlarm cfg prgs s m now).1 =
              { s with
                  t := some s.timers.length,
                  timers := s.timers ++
                    [{ armedAt := now, deadline := now + cfg.recoveryPeriod,
                       firedAt := none, stopCalled := false }],
                  downEvals := s.downEvals + 1 } := by
            simp [handleAlarm, hts, hev]
          rw [hx]
          constructor
          · intro id2 hid
            simp only [Option.some.injEq] at hid
            subst hid
            simp
          · intro i r hr
            simp only at hr
            rw [getElem?_append_singleton] at hr
            split at hr
            · rename_i hlt
              have := h2 i r hr
              rw [hts] at this
              constructor
              · intro hc
                exact absurd (this.1 hc) (by simp)
              · intro hc
                simp only [Option.some.injEq] at hc
                omega
            · split at hr
              · rename_i hnlt heq
                simp only [Option.some.injEq] at hr
                subst hr
                simp [heq]
              · cases hr
      · have hx : (handleAlarm cfg prgs s m now).1 =
            { s with downEvals := s.downEvals + 1 } := by
          simp [handleAlarm, hts, hev]
        rw [hx]
        exact ⟨h1, h2⟩
  · rcases hev : prgs.recoveredExprPrg.eval m with _ | v
    · have hx : (handleAlarm cfg prgs s m now).1 =
          { s with recoveredEvals := s.recoveredEvals + 1 } := by
        simp [handleAlarm, hts, hev]
      rw [hx]
      exact ⟨h1, h2⟩
    · rcases v with n | b | sv
      · have hx : (handleAlarm cfg prgs s m now).1 =
            { s with recoveredEvals := s.recoveredEvals + 1 } := by
          simp [handleAlarm, hts, hev]
        rw [hx]
        exact ⟨h1, h2⟩
      · rcases b with _ | _
        · have hx : (handleAlarm cfg prgs s m now).1 =
              { s with recoveredEvals := s.recoveredEvals + 1 } := by
            simp [handleAlarm, hts, hev]
          rw [hx]
          exact ⟨h1, h2⟩
        · have hx : (handleAlarm cfg prgs s m now).1 =
              { s with
                  t := none,
                  timers := modifyIdx s.timers id (fun r => { r with stopCalled := true }),
                  recoveredEvals := s.recoveredEvals + 1 } := by
            simp [handleAlarm, hts, hev]
          rw [hx]
          constructor
          · intro id2 hid
            cases hid
          · intro i r hr
            simp only at hr
            rw [modifyIdx_getElem?] at hr
            constructor
            · intro hc
              exfalso
              split at hr
              · rename_i hieq
                rcases hg : s.timers[i]? with _ | r0
                · rw [hg] at hr
                  cases hr
                · rw [hg] at hr
                  simp only [Option.map_some', Option.some.injEq] at hr
                  subst hr
                  simp at hc
              · rename_i hineq
                have := (h2 i r hr).1 hc
                rw [hts] at this
                simp only [Option.some.injEq] at this
                exact hineq this.symm
            · intro hc
              cases hc
      · have hx : (handleAlarm cfg prgs s m now).1 =
            { s with recoveredEvals := s.recoveredEvals + 1 } := by
          simp [handleAlarm, hts, hev]
        rw [hx]
        exact ⟨h1, h2⟩

/-- The fire callback preserves the debounce invariant: it changes only
firedAt, never Stop() status or the stored variable. -/
theorem strongInv_fireTimer (s : SysState) (id now : Nat) (h : StrongInv s) :
    StrongInv (fireTimer s id now) := by
  obtain ⟨h1, h2⟩ := h
  rcases hg : s.timers[id]? with _ | r
  · have hx : fireTimer s id now = s := by
      simp [fireTimer, hg]
    rw [hx]
    exact ⟨h1, h2⟩
  · by_cases hc : r.firedAt = none ∧ r.stopCalled = false ∧ r.deadline ≤ now
    · have hx : fireTimer s id now =
          { s with timers :=
              modifyIdx s.timers id (fun r0 => { r0 with firedAt := some now }) } := by
        simp [fireTimer, hg, hc]
      rw [hx]
      constructor
      · intro id2 hid
        simp only at hid
        rw [modifyIdx_length]
        exact h1 id2 hid
      · intro i r2 hr
        simp only at hr
        rw [modifyIdx_getElem?] at hr
        split at hr
        · rename_i hieq
          subst hieq
          rw [hg] at hr
          simp only [Option.map_some', Option.some.injEq] at hr
          subst hr
          simpa using h2 i r hg
        · exact h2 i r2 hr
    · have hx : fireTimer s id now = s := by
        simp only [fireTimer, hg]
        rw [if_neg hc]
      rw [hx]
      exact ⟨h1, h2⟩

/-- recvMessage preserves the debounce invariant. -/
theorem strongInv_recvMessage (cfg : Config) (prgs : Programs) (s : SysState)
    (msgTopic : String) (payload : Payload) (now : Nat) (h : StrongInv s) :
    StrongInv (recvMessage cfg prgs s msgTopic payload now).1 := by
  by_cases ht : msgTopic ≠ cfg.topic
  · simpa [recvMessage, ht] using h
  · rcases hum : unmarshal payload with _ | m
    · simpa [recvMessage, ht, hum] using h
    · by_cases hv : m.Valid
      · simpa [recvMessage, ht, hum, hv] using
          strongInv_handleAlarm cfg prgs s m now h
      · simpa [recvMessage, ht, hum, hv] using h

/-- Every step preserves the debounce invariant. -/
theorem strongInv_step (cfg : Config) (prgs : Programs) (acc : SysState × Option String)
    (i : InputStep) (h : StrongInv acc.1) : StrongInv (step cfg prgs acc i).1 := by
  rcases acc with ⟨s, f⟩
  rcases f with _ | e
  · rcases i with ⟨now, tp, p⟩ | ⟨now, id⟩
    · exact strongInv_recvMessage cfg prgs s tp p now h
    · exact strongInv_fireTimer s id now h
  · exact h

/-- The invariant holds along any fold of steps. -/
theorem strongInv_foldl (cfg : Config) (prgs : Programs) (inputs : List InputStep) :
    ∀ acc : SysState × Option String, StrongInv acc.1 →
      StrongInv (List.foldl (step cfg prgs) acc inputs).1 := by
  induction inputs with
  | nil => intro acc h; exact h
  | cons i rest ih =>
    intro acc h
    exact ih _ (strongInv_step cfg prgs acc i h)

/-- Every reachable state of the goroutine satisfies the invariant. -/
theorem strongInv_run (cfg : Config) (prgs : Programs) (inputs : List InputStep) :
    StrongInv (run cfg prgs inputs).1 := by
  apply strongInv_foldl
  constructor
  · intro id hid
    cases hid
  · intro i r hr
    simp [initState] at hr

/-- A predicate true at a unique index holds of at most one list element. -/
theorem countP_le_one_of_unique_idx {α : Type} (p : α → Bool) (l : List α)
    (h : ∀ (i j : Nat) (ri rj : α), l[i]? = some ri → l[j]? = some rj →
      p ri = true → p rj = true → i = j) :
    l.countP p ≤ 1 := by
  induction l with
  | nil => simp
  | cons a rest ih =>
    rw [List.countP_cons]
    by_cases hp : p a = true
    · have hrest : rest.countP p = 0 := by
        rw [List.countP_eq_zero]
        intro b hb hpb
        obtain ⟨j, hj⟩ := List.mem_iff_getElem?.1 hb
        have := h 0 (j + 1) a b (by simp) (by simpa using hj) hp hpb
        omega
      simp [hrest, hp]
    · have hz : (if p a then 1 else 0) = 0 := by
        simp [hp]
      rw [hz]
      have := ih (fun i j ri rj hi hj hpi hpj => by
        have := h (i + 1) (j + 1) ri rj (by simpa using hi) (by simpa using hj) hpi hpj
        omega)
      omega

/-- C6: in every reachable state at most one outstanding timer exists; the
stored variable is non-nil exactly when some timer has been created and not
yet Stop()ed (fired or not); and with a handle stored no new timer is ever
created by the handler. -/
theorem at_most_one_outstanding_timer (cfg : Config) (prgs : Programs)
    (inputs : List InputStep) (s2 : SysState) (m : PowerAlarmMessage) (now : Nat)
    (harm : s2.t ≠ none) :
    (run cfg prgs inputs).1.timers.countP TimerRec.scheduled ≤ 1 ∧
    ((run cfg prgs inputs).1.t.isSome = true ↔
      ∃ r ∈ (run cfg prgs inputs).1.timers, r.stopCalled = false) ∧
    (handleAlarm cfg prgs s2 m now).1.timers.length = s2.timers.length := by
  obtain ⟨h1, h2⟩ := strongInv_run cfg prgs inputs
  refine ⟨?_, ?_, ?_⟩
  · apply countP_le_one_of_unique_idx
    intro i j ri rj hi hj hpi hpj
    have hsi : ri.stopCalled = false := by
      simp only [TimerRec.scheduled, Bool.and_eq_true, Bool.not_eq_true'] at hpi
      exact hpi.2
    have hsj : rj.stopCalled = false := by
      simp only [TimerRec.scheduled, Bool.and_eq_true, Bool.not_eq_true'] at hpj
      exact hpj.2
    have hti := (h2 i ri hi).1 hsi
    have htj := (h2 j rj hj).1 hsj
    rw [hti] at htj
    exact (Option.some.injEq _ _ ▸ htj).symm ▸ rfl
  · constructor
    · intro hsome
      rcases hopt : (run cfg prgs inputs).1.t with _ | id
      · rw [hopt] at hsome
        cases hsome
      · have hlen := h1 id hopt
        have hid : id < (run cfg prgs inputs).1.timers.length := by omega
        have hg : (run cfg prgs inputs).1.timers[id]? =
            some ((run cfg prgs inputs).1.timers[id]) :=
          List.getElem?_eq_getElem hid
        exact ⟨(run cfg prgs inputs).1.timers[id], List.getElem_mem hid,
          (h2 id _ hg).2 hopt⟩
    · rintro ⟨r, hr, hrs⟩
      obtain ⟨i, hi⟩ := List.mem_iff_getElem?.1 hr
      rw [(h2 i r hi).1 hrs]
      rfl
  · rcases hts : s2.t with _ | id
    · exact absurd hts harm
    · rcases hev : prgs.recoveredExprPrg.eval m with _ | v
      · simp [handleAlarm, hts, hev]
      · rcases v with n | b | sv
        · simp [handleAlarm, hts, hev]
        · rcases b with _ | _
          · simp [handleAlarm, hts, hev]
          · simp [handleAlarm, hts, hev, modifyIdx_length]
        · simp [handleAlarm, hts, hev]

/-- C6 witness: a short concrete history — arm, fire, redeliver — and a
concrete armed state for the no-new-timer part. -/
theorem at_most_one_outstanding_timer_witness :
    (run ⟨"power/alarms", 3, false⟩ ⟨exprNotOnline, exprOnline⟩
        [InputStep.recv 0 ("power/alarms") (Payload.json ⟨some false, some 1, some ("global")⟩),
         InputStep.fire 3 0,
         InputStep.recv 4 ("power/alarms")
           (Payload.json ⟨some false, some 1, some ("global")⟩)]).1.timers.countP
      TimerRec.scheduled ≤ 1 ∧
    ((run ⟨"power/alarms", 3, false⟩ ⟨exprNotOnline, exprOnline⟩
        [InputStep.recv 0 ("power/alarms") (Payload.json ⟨some false, some 1, some ("global")⟩),
         InputStep.fire 3 0,
         InputStep.recv 4 ("power/alarms")
           (Payload.json ⟨some false, some 1, some ("global")⟩)]).1.t.isSome = true ↔
      ∃ r ∈ (run ⟨"power/alarms", 3, false⟩ ⟨exprNotOnline, exprOnline⟩
        [InputStep.recv 0 ("power/alarms") (Payload.json ⟨some false, some 1, some ("global")⟩),
         InputStep.fire 3 0,
         InputStep.recv 4 ("power/alarms")
           (Payload.json ⟨some false, some 1, some ("global")⟩)]).1.timers,
        r.stopCalled = false) ∧
    (handleAlarm ⟨"power/alarms", 3, false⟩ ⟨exprNotOnline, exprOnline⟩
        ⟨some 0, [⟨0, 3, none, false⟩], 1, 0⟩ ⟨true, 1, "global"⟩ 2).1.timers.length = 1 :=
  at_most_one_outstanding_timer ⟨"power/alarms", 3, false⟩ ⟨exprNotOnline, exprOnline⟩
    [InputStep.recv 0 ("power/alarms") (Payload.json ⟨some false, some 1, some ("global")⟩),
     InputStep.fire 3 0,
     InputStep.recv 4 ("power/alarms") (Payload.json ⟨some false, some 1, some ("global")⟩)]
    ⟨some 0, [⟨0, 3, none, false⟩], 1, 0⟩ ⟨true, 1, "global"⟩ 2 (by decide)

end Mqttshutdownd
